import Mathlib

/-
Shallow embedding of py_proc/proc.py: a wrapper around a callable supporting
currying (progressive application), composition and arity introspection.

Modelling conventions:
- A Python callable is a `PyCallable`: a total function `List α → Option β`
  (where `none` models a raised TypeError, e.g. an arity mismatch) together
  with its introspectable signature (`Sig`, a list of parameters, each with a
  kind and a default-value flag), as returned by inspect.signature.
- Mutation of the `argv` buffers is modelled by explicit state passing: a call
  that in Python mutates `self.argv` and returns `self` here returns the
  updated record.  Object identity for VCurriedProc.__call__ is additionally
  modelled by an explicit store of live objects (`vcuCallInPlace`).
- A dynamically-typed chain expression such as `b.curry(1)(2)(3)(4)` is
  modelled by the sum type `Dyn`, whose cases are the values such a chain can
  take in Python: a fixed-arity curried proc, a variadic curried proc, a plain
  returned value, or a raised exception.  Applying call syntax to a plain
  returned value (the values in this development are numbers and tuples,
  never callables) raises TypeError, modelled as `Dyn.err`.
-/

/-- The parameter kinds of inspect.Parameter. -/
inductive ParamKind where
  | positionalOnly
  | positionalOrKeyword
  | varPositional
  | keywordOnly
  | varKeyword
deriving DecidableEq

/-- One parameter of a signature: its kind, and whether it has a default. -/
structure Param where
  kind : ParamKind
  hasDefault : Bool
deriving DecidableEq

/-- inspect.signature(callback): the ordered list of declared parameters. -/
structure Sig where
  params : List Param
deriving DecidableEq

/-- count_required(tally, param): "Increment and return the tally if a
parameter is required." — the source tests only membership of param.kind in
[POSITIONAL_OR_KEYWORD, VAR_POSITIONAL]; the default-value flag is not
consulted. -/
def count_required (tally : Nat) (p : Param) : Nat :=
  if p.kind ∈ [ParamKind.positionalOrKeyword, ParamKind.varPositional] then
    tally + 1
  else
    tally

/-- min_num_args(sig): reduce(count_required, sig.parameters.values(), 0). -/
def min_num_args (s : Sig) : Nat :=
  s.params.foldl count_required 0

/-- is_var_positional(param): param.kind == param.VAR_POSITIONAL. -/
def is_var_positional (p : Param) : Bool :=
  p.kind == ParamKind.varPositional

/-- is_variadic(sig): any(map(is_var_positional, sig.parameters.values())). -/
def is_variadic (s : Sig) : Bool :=
  (s.params.map is_var_positional).any id

/-- A Python callable: its behaviour on an argument list (none = it raised,
e.g. a TypeError from an arity mismatch) and its introspectable signature. -/
structure PyCallable (α β : Type) where
  fn : List α → Option β
  sig : Sig

/-- Proc: wraps a callback together with the arity metadata that
Proc.__init__ computes once from its signature. -/
structure Proc (α β : Type) where
  callback : PyCallable α β
  arity : Nat
  is_variadic : Bool

/-- Proc.__init__(callback): stores the callback, self.arity =
min_num_args(sig) and self.is_variadic = is_variadic(sig). -/
def mkProc {α β : Type} (cb : PyCallable α β) : Proc α β :=
  { callback := cb, arity := min_num_args cb.sig, is_variadic := is_variadic cb.sig }

variable {α β γ : Type}

/-- Proc.call(*args): invoke the callback with exactly the given arguments. -/
def Proc.call (p : Proc α β) (args : List α) : Option β :=
  p.callback.fn args

/-- FCurriedProc: fixed-arity curried proc. self.argv is the accumulated
argument buffer; self.arity is recomputed by super().__init__ from the
callback's signature, so it is read here as min_num_args of that signature. -/
structure FCurriedProc (α β : Type) where
  callback : PyCallable α β
  argv : List α

/-- VCurriedProc: variable-arity curried proc with accumulated buffer argv. -/
structure VCurriedProc (α β : Type) where
  callback : PyCallable α β
  argv : List α

/-- The possible values of a dynamically-typed currying chain expression:
a fixed-arity curried proc, a variadic curried proc, a plain returned value,
or a raised exception propagating out of the chain. -/
inductive Dyn (α β : Type) where
  | fc : FCurriedProc α β → Dyn α β
  | vc : VCurriedProc α β → Dyn α β
  | val : β → Dyn α β
  | err : Dyn α β

/-- Lift a callback result into a chain value: a returned value, or a raise. -/
def dynOfOption : Option β → Dyn α β
  | some v => Dyn.val v
  | none => Dyn.err

/-- Proc.curry(*args): dispatch on self.is_variadic to VCurriedProc or
FCurriedProc, seeded with args as the initial buffer. -/
def Proc.curry (p : Proc α β) (args : List α) : Dyn α β :=
  if p.is_variadic then
    Dyn.vc ⟨p.callback, args⟩
  else
    Dyn.fc ⟨p.callback, args⟩

/-- The signature of the composing closure `lambda *args: ...`: a single
variable-positional parameter. -/
def lambdaStarSig : Sig :=
  ⟨[⟨ParamKind.varPositional, false⟩]⟩

/-- Proc.__rshift__(proc): Proc(lambda *args: proc(self(*args))) — self runs
first; if self(*args) raises, the exception propagates before proc is
called (Option.bind). -/
def Proc.rshift (f : Proc α β) (g : Proc β γ) : Proc α γ :=
  mkProc ⟨fun args => (f.call args).bind (fun v => g.call [v]), lambdaStarSig⟩

/-- Proc.__lshift__(proc): Proc(lambda *args: self(proc(*args))) — the given
proc runs first. -/
def Proc.lshift (f : Proc α β) (g : Proc γ α) : Proc γ β :=
  mkProc ⟨fun args => (g.call args).bind (fun v => f.call [v]), lambdaStarSig⟩

/-- FCurriedProc.call(*args): self.argv += args; if len(self.argv) <
self.arity return self (still pending), else return self.callback(*self.argv)
(its value, or the exception it raises). -/
def FCurriedProc.call (p : FCurriedProc α β) (args : List α) : Dyn α β :=
  if (p.argv ++ args).length < min_num_args p.callback.sig then
    Dyn.fc ⟨p.callback, p.argv ++ args⟩
  else
    dynOfOption (p.callback.fn (p.argv ++ args))

/-- FCurriedProc.curry(*args): FCurriedProc(self.callback, *self.argv)
.call(*args) — a fresh object seeded with the current buffer, then applied. -/
def FCurriedProc.curry (p : FCurriedProc α β) (args : List α) : Dyn α β :=
  FCurriedProc.call ⟨p.callback, p.argv⟩ args

/-- VCurriedProc.curry(*args): a new VCurriedProc with the concatenated
buffer; self is not mutated. -/
def VCurriedProc.curry (p : VCurriedProc α β) (args : List α) : VCurriedProc α β :=
  ⟨p.callback, p.argv ++ args⟩

/-- VCurriedProc.__call__(*args): self.argv += args; return self.  The
returned record is the updated receiver (state-passing view of the in-place
mutation; identity is treated separately by vcuCallInPlace). -/
def VCurriedProc.dcall (p : VCurriedProc α β) (args : List α) : VCurriedProc α β :=
  ⟨p.callback, p.argv ++ args⟩

/-- VCurriedProc.call(*args): self.argv += args; return
self.callback(*self.argv). -/
def VCurriedProc.call (p : VCurriedProc α β) (args : List α) : Dyn α β :=
  dynOfOption (p.callback.fn (p.argv ++ args))

/-- Applying call syntax `d(*args)` to a chain value: a fixed curried proc
runs Proc.__call__ → FCurriedProc.call; a variadic curried proc runs
VCurriedProc.__call__; a plain value (numbers/tuples here, not callable)
raises TypeError; a raised exception keeps propagating. -/
def Dyn.app : Dyn α β → List α → Dyn α β
  | Dyn.fc p, args => p.call args
  | Dyn.vc p, args => Dyn.vc (p.dcall args)
  | Dyn.val _, _ => Dyn.err
  | Dyn.err, _ => Dyn.err

/-- Invoking the .curry method on a chain value. -/
def Dyn.curry : Dyn α β → List α → Dyn α β
  | Dyn.fc p, args => p.curry args
  | Dyn.vc p, args => Dyn.vc (p.curry args)
  | Dyn.val _, _ => Dyn.err
  | Dyn.err, _ => Dyn.err

/-- Invoking the .call method on a chain value. -/
def Dyn.call : Dyn α β → List α → Dyn α β
  | Dyn.fc p, args => p.call args
  | Dyn.vc p, args => p.call args
  | Dyn.val _, _ => Dyn.err
  | Dyn.err, _ => Dyn.err

/-- VCurriedProc.__call__ with object identity made explicit: the live
VCurriedProc objects form a store indexed by identity; the receiver is the
index r.  `self.argv += args; return self` updates the receiver's cell in
place and returns the receiver's identity. -/
def vcuCallInPlace (s : List (VCurriedProc α β)) (r : Nat) (args : List α) :
    List (VCurriedProc α β) × Nat :=
  match s[r]? with
  | some p => (s.set r ⟨p.callback, p.argv ++ args⟩, r)
  | none => (s, r)

/-- Signature of `lambda x, y, z: x + y + z`. -/
def sig3 : Sig :=
  ⟨[⟨ParamKind.positionalOrKeyword, false⟩, ⟨ParamKind.positionalOrKeyword, false⟩,
    ⟨ParamKind.positionalOrKeyword, false⟩]⟩

/-- The callable `lambda x, y, z: x + y + z`: defined on exactly three
positional arguments, raising (none) otherwise. -/
def cb3 : PyCallable Nat Nat :=
  ⟨fun l => if l.length == 3 then some l.sum else none, sig3⟩

/-- Signature of `lambda *a: ...`. -/
def vSig : Sig :=
  ⟨[⟨ParamKind.varPositional, false⟩]⟩

/-- The callable `lambda *a: a`: returns the tuple of its arguments. -/
def cbTup : PyCallable Nat (List Nat) :=
  ⟨fun l => some l, vSig⟩

/-- Signature of `lambda x, y=1: x + y`: one required positional-or-keyword
parameter and one with a default value. -/
def sigDef : Sig :=
  ⟨[⟨ParamKind.positionalOrKeyword, false⟩, ⟨ParamKind.positionalOrKeyword, true⟩]⟩

/-- The callable `lambda x, y=1: x + y`. -/
def cbDef : PyCallable Nat Nat :=
  ⟨fun l =>
    match l with
    | [x] => some (x + 1)
    | [x, y] => some (x + y)
    | _ => none,
   sigDef⟩

/-- Helper: a fixed-arity chain that supplies x, then y, then z to a 3-ary
non-variadic callable ends by invoking the callback on [x, y, z]. -/
theorem fchain_xyz (cb : PyCallable α β) (h1 : min_num_args cb.sig = 3)
    (h2 : is_variadic cb.sig = false) (x y z : α) :
    (((mkProc cb).curry [x]).app [y]).app [z] = dynOfOption (cb.fn [x, y, z]) := by
  simp [Proc.curry, mkProc, h2, Dyn.app, FCurriedProc.call, h1]

/-- C7: for all Procedures f, g (and h), forward composition runs f first and
backward composition runs the right operand first: (f >> g).call [x] is
g applied to the result of f at x, and (f << h).call [y] is f applied to the
result of h at y, exceptions propagating. -/
theorem composition_order (f : Proc α β) (g : Proc β γ) (h : Proc γ α)
    (x : α) (y : γ) :
    ((f.rshift g).call [x] = (f.call [x]).bind (fun v => g.call [v])) ∧
    ((f.lshift h).call [y] = (h.call [y]).bind (fun v => f.call [v])) :=
  ⟨rfl, rfl⟩

/-- C10: composed Procedures f >> g and f << h wrap the closure
`lambda *args: ...`, so both have arity 1 and is_variadic = true, and curry
on a composed Procedure always dispatches to the variable-arity variant. -/
theorem composition_arity_variadic_dispatch (f : Proc α β) (g : Proc β γ)
    (h : Proc γ α) (args : List α) (args2 : List γ) :
    ((f.rshift g).arity = 1) ∧ ((f.rshift g).is_variadic = true) ∧
    ((f.lshift h).arity = 1) ∧ ((f.lshift h).is_variadic = true) ∧
    ((f.rshift g).curry args = Dyn.vc ⟨(f.rshift g).callback, args⟩) ∧
    ((f.lshift h).curry args2 = Dyn.vc ⟨(f.lshift h).callback, args2⟩) :=
  ⟨rfl, rfl, rfl, rfl, rfl, rfl⟩

/-- C2: for a non-variadic callable of arity 3, every grouping of the curry
chain that supplies x, y, z in order — curry(x)(y)(z), curry(x,y)(z),
curry(x)(y,z), curry()(x,y,z) — invokes the callback on [x, y, z], and the
intermediate step curry(x)(y) is still pending with buffer [x, y]. -/
theorem fixed_arity_grouping_threshold (cb : PyCallable α β)
    (h1 : min_num_args cb.sig = 3) (h2 : is_variadic cb.sig = false) (x y z : α) :
    (((mkProc cb).curry [x]).app [y] = Dyn.fc ⟨cb, [x, y]⟩) ∧
    ((((mkProc cb).curry [x]).app [y]).app [z] = dynOfOption (cb.fn [x, y, z])) ∧
    (((mkProc cb).curry [x, y]).app [z] = dynOfOption (cb.fn [x, y, z])) ∧
    (((mkProc cb).curry [x]).app [y, z] = dynOfOption (cb.fn [x, y, z])) ∧
    (((mkProc cb).curry []).app [x, y, z] = dynOfOption (cb.fn [x, y, z])) := by
  refine ⟨?_, fchain_xyz cb h1 h2 x y z, ?_, ?_, ?_⟩ <;>
    simp [Proc.curry, mkProc, h2, Dyn.app, FCurriedProc.call, h1]

/-- C2 witness: the four groupings at cb3 = lambda x, y, z: x + y + z with
arguments 1, 2, 3. -/
theorem fixed_arity_grouping_threshold_witness :
    (((mkProc cb3).curry [1]).app [2] = Dyn.fc ⟨cb3, [1, 2]⟩) ∧
    ((((mkProc cb3).curry [1]).app [2]).app [3] = dynOfOption (cb3.fn [1, 2, 3])) ∧
    (((mkProc cb3).curry [1, 2]).app [3] = dynOfOption (cb3.fn [1, 2, 3])) ∧
    (((mkProc cb3).curry [1]).app [2, 3] = dynOfOption (cb3.fn [1, 2, 3])) ∧
    (((mkProc cb3).curry []).app [1, 2, 3] = dynOfOption (cb3.fn [1, 2, 3])) :=
  fixed_arity_grouping_threshold cb3 rfl rfl 1 2 3

/-- C6: over-applying a 3-ary non-variadic callable, curry(x)(y)(z)(w),
raises (the third application already returned the callback's result — or its
exception — and applying call syntax to either raises), so the chain never
yields a value. -/
theorem over_application_raises (cb : PyCallable α β)
    (h1 : min_num_args cb.sig = 3) (h2 : is_variadic cb.sig = false)
    (x y z w : α) :
    ((((mkProc cb).curry [x]).app [y]).app [z]).app [w] = Dyn.err := by
  rw [fchain_xyz cb h1 h2 x y z]
  cases cb.fn [x, y, z] <;> simp [dynOfOption, Dyn.app]

/-- C6 witness: curry(1)(2)(3)(4) at cb3 raises. -/
theorem over_application_raises_witness :
    ((((mkProc cb3).curry [1]).app [2]).app [3]).app [4] = Dyn.err :=
  over_application_raises cb3 rfl rfl 1 2 3 4

/-- C1 (evaluation of the source at the claimed input): for
v = Proc(lambda *a: a), the chains v.curry(1)(2)(3)() and v.curry()(1)(2)()
evaluate to the still-curried variadic proc carrying buffers [1,2,3] and
[1,2] respectively — VCurriedProc.__call__ always returns the receiver and
never invokes the callback, so neither chain yields the tuple. -/
theorem variadic_chain_returns_receiver_not_tuple :
    (((((mkProc cbTup).curry [1]).app [2]).app [3]).app [] = Dyn.vc ⟨cbTup, [1, 2, 3]⟩) ∧
    (((((mkProc cbTup).curry []).app [1]).app [2]).app [] = Dyn.vc ⟨cbTup, [1, 2]⟩) ∧
    (Dyn.vc ⟨cbTup, [1, 2, 3]⟩ ≠ Dyn.val [1, 2, 3]) ∧
    (Dyn.vc ⟨cbTup, [1, 2]⟩ ≠ Dyn.val [1, 2]) :=
  ⟨rfl, rfl, fun h => Dyn.noConfusion h, fun h => Dyn.noConfusion h⟩

/-- C3 (evaluation of the source at the claimed input): count_required never
consults the default-value flag, so Proc(lambda x, y=1: x + y).arity is 2,
counting the defaulted positional-or-keyword parameter. -/
theorem defaulted_param_counted (t : Nat) (k : ParamKind) :
    ((mkProc cbDef).arity = 2) ∧
    (count_required t ⟨k, true⟩ = count_required t ⟨k, false⟩) := by
  constructor
  · rfl
  · simp [count_required]

/-- C4 counterexample: with cb3 = lambda x, y, z: x + y + z, starting from
the curried proc with buffer [1], the direct call (2) accumulates to [1, 2];
a subsequent .curry(10) re-applies the accumulated buffer [1, 2] — not the
original [1] — and immediately invokes cb3 on [1, 2, 10] giving 13, instead
of the pending proc with buffer [1, 10] that the claim predicts. -/
theorem fcurry_discards_accumulated_ce :
    (FCurriedProc.call ⟨cb3, [1]⟩ [2] = Dyn.fc ⟨cb3, [1, 2]⟩) ∧
    (FCurriedProc.curry ⟨cb3, [1, 2]⟩ [10] = Dyn.val 13) ∧
    (Dyn.val 13 ≠ Dyn.fc ⟨cb3, [1, 10]⟩) :=
  ⟨rfl, rfl, fun h => Dyn.noConfusion h⟩

/-- C4 amended: for a fixed-arity curried procedure, curry(*args) combines
args with the instance's current argument buffer — which includes arguments
accumulated via prior direct calls — and immediately applies the combination
(invoking the callable when the threshold is reached): if a direct call on
⟨cb, a⟩ with args stays pending as q, then q.curry args2 behaves exactly as a
call on the accumulated buffer a ++ args. -/
theorem fcurry_combines_current_buffer (cb : PyCallable α β)
    (a args args2 : List α) (q : FCurriedProc α β)
    (h : FCurriedProc.call ⟨cb, a⟩ args = Dyn.fc q) :
    FCurriedProc.curry q args2 = FCurriedProc.call ⟨cb, a ++ args⟩ args2 := by
  simp only [FCurriedProc.call] at h
  split at h
  · cases h
    rfl
  · cases hfn : cb.fn (a ++ args) <;> rw [hfn] at h <;> exact Dyn.noConfusion h

/-- C4 witness: at cb3, after the pending direct call recorded in the
counterexample, curry(10) equals a call on the accumulated buffer [1, 2]. -/
theorem fcurry_combines_current_buffer_witness :
    FCurriedProc.curry ⟨cb3, [1, 2]⟩ [10] = FCurriedProc.call ⟨cb3, [1] ++ [2]⟩ [10] :=
  fcurry_combines_current_buffer cb3 [1] [2] [10] ⟨cb3, [1, 2]⟩ rfl

/-- C5 counterexample: with cb3 = lambda x, y, z: x + y + z,
b.curry(1).curry(2, 3) immediately invokes and evaluates to the value 6,
while b.curry(1, 2, 3) is a still-pending curried proc with buffer
[1, 2, 3]; the two are not equal. -/
theorem double_curry_not_equivalent_ce :
    (Dyn.curry ((mkProc cb3).curry [1]) [2, 3] = Dyn.val 6) ∧
    ((mkProc cb3).curry [1, 2, 3] = Dyn.fc ⟨cb3, [1, 2, 3]⟩) ∧
    (Dyn.val 6 ≠ Dyn.fc ⟨cb3, [1, 2, 3]⟩) :=
  ⟨rfl, rfl, fun h => Dyn.noConfusion h⟩

/-- C5 amended: for a 3-ary non-variadic callable, b.curry(x).curry(y, z)
immediately invokes the callback on [x, y, z]; b.curry(x, y, z) yields the
same outcome only after one further zero-argument call. -/
theorem double_curry_invokes_immediately (cb : PyCallable α β)
    (h1 : min_num_args cb.sig = 3) (h2 : is_variadic cb.sig = false) (x y z : α) :
    (Dyn.curry ((mkProc cb).curry [x]) [y, z] = dynOfOption (cb.fn [x, y, z])) ∧
    (Dyn.call ((mkProc cb).curry [x, y, z]) [] = dynOfOption (cb.fn [x, y, z])) := by
  constructor <;>
    simp [Proc.curry, mkProc, h2, Dyn.curry, Dyn.call, FCurriedProc.curry,
      FCurriedProc.call, h1]

/-- C5 witness: the amended equivalence at cb3 with arguments 1, 2, 3. -/
theorem double_curry_invokes_immediately_witness :
    (Dyn.curry ((mkProc cb3).curry [1]) [2, 3] = dynOfOption (cb3.fn [1, 2, 3])) ∧
    (Dyn.call ((mkProc cb3).curry [1, 2, 3]) [] = dynOfOption (cb3.fn [1, 2, 3])) :=
  double_curry_invokes_immediately cb3 rfl rfl 1 2 3

/-- C9: a positional-only parameter contributes 0 to Procedure arity:
removing it from the signature leaves min_num_args — and hence the stored
arity — unchanged, because only positional-or-keyword and variable-positional
kinds are counted. -/
theorem positional_only_not_counted (fn : List Nat → Option Nat)
    (l1 l2 : List Param) (p : Param)
    (hp : p.kind = ParamKind.positionalOnly) :
    (mkProc ⟨fn, ⟨l1 ++ p :: l2⟩⟩).arity = min_num_args ⟨l1 ++ l2⟩ := by
  have hcr : ∀ t, count_required t p = t := by
    intro t
    simp [count_required, hp]
  show min_num_args ⟨l1 ++ p :: l2⟩ = min_num_args ⟨l1 ++ l2⟩
  simp [min_num_args, List.foldl_append, List.foldl_cons, hcr]

/-- C9 witness: a signature with one positional-only and one
positional-or-keyword parameter has arity 1, the same as without the
positional-only one. -/
theorem positional_only_not_counted_witness :
    (mkProc (⟨fun _ => none,
      ⟨[] ++ (⟨ParamKind.positionalOnly, false⟩ : Param) ::
        [⟨ParamKind.positionalOrKeyword, false⟩]⟩⟩ : PyCallable Nat Nat)).arity
      = min_num_args ⟨[] ++ [⟨ParamKind.positionalOrKeyword, false⟩]⟩ :=
  positional_only_not_counted (fun _ => none) []
    [⟨ParamKind.positionalOrKeyword, false⟩] ⟨ParamKind.positionalOnly, false⟩ rfl

/-- C8: a direct invocation of a variable-arity curried procedure appends the
given args to the receiver's buffer in place and returns the identical
receiver (the returned identity is the receiver's, no object is created, the
receiver's callback is untouched — so the callback's result is never
returned — and every other live object is unchanged). -/
theorem vcall_in_place_aliasing (s : List (VCurriedProc α β)) (r : Nat)
    (args : List α) (p : VCurriedProc α β) (i : Nat)
    (hp : s[r]? = some p) (hi : i ≠ r) :
    ((vcuCallInPlace s r args).2 = r) ∧
    ((vcuCallInPlace s r args).1.length = s.length) ∧
    ((vcuCallInPlace s r args).1[r]? = some ⟨p.callback, p.argv ++ args⟩) ∧
    ((vcuCallInPlace s r args).1[i]? = s[i]?) := by
  have hr : r < s.length := by
    rcases List.getElem?_eq_some_iff.1 hp with ⟨h, _⟩
    exact h
  refine ⟨?_, ?_, ?_, ?_⟩ <;> simp [vcuCallInPlace, hp, List.getElem?_set_self,
    List.getElem?_set_ne (fun h => hi h.symm), hr]

/-- C8 witness: in a store holding one variadic curried proc with buffer [1],
a direct call with [2] returns the same identity 0, keeps the store size at
1, extends the buffer to [1, 2] in place, and leaves index 1 unchanged. -/
theorem vcall_in_place_aliasing_witness :
    ((vcuCallInPlace [(⟨cbTup, [1]⟩ : VCurriedProc Nat (List Nat))] 0 [2]).2 = 0) ∧
    ((vcuCallInPlace [(⟨cbTup, [1]⟩ : VCurriedProc Nat (List Nat))] 0 [2]).1.length
       = [(⟨cbTup, [1]⟩ : VCurriedProc Nat (List Nat))].length) ∧
    ((vcuCallInPlace [(⟨cbTup, [1]⟩ : VCurriedProc Nat (List Nat))] 0 [2]).1[0]?
       = some ⟨cbTup, [1] ++ [2]⟩) ∧
    ((vcuCallInPlace [(⟨cbTup, [1]⟩ : VCurriedProc Nat (List Nat))] 0 [2]).1[1]?
       = [(⟨cbTup, [1]⟩ : VCurriedProc Nat (List Nat))][1]?) :=
  vcall_in_place_aliasing [⟨cbTup, [1]⟩] 0 [2] ⟨cbTup, [1]⟩ 1 rfl (by decide)
